import Mathlib

/-!
Shallow embedding of the publish orchestration logic of
`src/operator-index.py` (RedHatGov/operator-catalog), and proofs about it.

The embedding models the pure decision logic of the script:
configuration records, the `opm` argument generation, the container-runtime
detection, the tag resolution performed inside the `push` command, and the
`push` command itself as a function from its inputs (settings, detected
runtime string, tag extension, extra tags, build flag, the list of local
images reported by the runtime) to the sequence of subprocesses it executes
together with its outcome.
-/

/-- Mirrors `class OperatorBundle` (src/operator-index.py lines 34-47):
fields `name`, `img`, `tag`, each defaulting to Python `None`; only `img`
and `tag` are ever used downstream, `name` is carried along. -/
structure OperatorBundle where
  name : Option String
  img : String
  tag : String
deriving DecidableEq

/-- Mirrors `class OperatorIndex` (lines 50-61): the target catalog index
identity, fields `img` and `tag`. -/
structure OperatorIndex where
  img : String
  tag : String
deriving DecidableEq

/-- Mirrors `class OperatorIndexSettings` (lines 64-94): an ordered list of
bundles and one index. -/
structure OperatorIndexSettings where
  bundles : List OperatorBundle
  index : OperatorIndex
deriving DecidableEq

/-- Mirrors `OperatorIndexSettings.generate_command_line` (lines 96-114).
The source queries `self._determine_runtime()` for the build tool; here the
detected runtime string is passed as a parameter.  Renders each bundle as
`img:tag` (Python `":".join([bundle.img, bundle.tag])`), joins them with
commas (Python `",".join(...)`), renders the index as `img:tag`, and
interpolates into the fixed format string
`" index add --build-tool {} --bundles {} --tag {}"`. -/
def generate_command_line (s : OperatorIndexSettings) (runtime : String) : String :=
  let bundles := String.intercalate ","
    (s.bundles.map (fun b => b.img ++ ":" ++ b.tag))
  let index := s.index.img ++ ":" ++ s.index.tag
  " index add --build-tool " ++ runtime ++ " --bundles " ++ bundles
    ++ " --tag " ++ index

/-- Python `str.endswith`: the suffix's characters are a suffix of the
string's characters.  (Defined on the character lists so that it reduces by
evaluation; `String.endsWith` agrees but works on byte positions.) -/
def ends_with (s suffix : String) : Bool :=
  suffix.data.isSuffixOf s.data

/-- The error raised by `_determine_runtime` (line 130:
`RuntimeError("Unable to identify a container runtime!")`). -/
inductive RuntimeError where
  | NoRuntimeFound
deriving DecidableEq

/-- The acceptance test applied to one line of `which <candidate>` output in
`_determine_runtime` (lines 124 and 128): the line must end with
`/<candidate>` and must not be a symbolic link (`os.path.islink`).  The
host's link predicate is passed in as `islink`. -/
def accepted_line (islink : String → Bool) (suffix : String) (line : String) : Bool :=
  ends_with line suffix && !(islink line)

/-- Mirrors `OperatorIndexSettings._determine_runtime` (lines 116-130).
The source iterates the output lines of `which docker`, returning `"docker"`
at the first line passing the acceptance test; only if none passes does it
iterate `which podman` the same way for `"podman"`; if neither loop returns
it raises.  Because the returned value is the constant candidate name, the
first-match loop is equivalently `List.any` of the acceptance test.  The
host environment enters as the two `which` output line lists and the
`islink` predicate. -/
def determine_runtime (islink : String → Bool)
    (dockerLines podmanLines : List String) : Except RuntimeError String :=
  if dockerLines.any (accepted_line islink "/docker") then
    Except.ok "docker"
  else if podmanLines.any (accepted_line islink "/podman") then
    Except.ok "podman"
  else
    Except.error RuntimeError.NoRuntimeFound

/-- Result of tag resolution: whether an image was found and under which
exact tag (the `found_image` flag and `built_tag` variable of `push`,
lines 328-354). -/
structure ResolveResult where
  found : Bool
  resolvedTag : String
deriving DecidableEq

/-- Tag resolution as performed inline in `push` (lines 334-354): with an
extension, first search the local image list for the exact string
`{base}-{ext}` (the loop at lines 341-346, which on a hit appends the
extension to `built_tag`); if that missed — or no extension was given —
search for the exact string `{base}` (the loop at lines 350-354).  Both
loops compare whole strings with `==`.  If neither matches, `found_image`
stays false and `built_tag` stays the base tag. -/
def resolve (base : String) (tag_extension : Option String)
    (images : List String) : ResolveResult :=
  match tag_extension with
  | some e =>
    if images.contains (base ++ "-" ++ e) then
      { found := true, resolvedTag := base ++ "-" ++ e }
    else if images.contains base then
      { found := true, resolvedTag := base }
    else
      { found := false, resolvedTag := base }
  | none =>
    if images.contains base then
      { found := true, resolvedTag := base }
    else
      { found := false, resolvedTag := base }

/-- The configured fully qualified tag `"{img}:{tag}"` computed at
lines 328-331 of `push`. -/
def configured_tag (s : OperatorIndexSettings) : String :=
  s.index.img ++ ":" ++ s.index.tag

/-- One subprocess executed by the `push` command, in execution order:
the image listing (line 335), the invocation of the `build` subcommand via
`ctx.invoke(do_build, ...)` (lines 361-363, carrying the tag extension it
is passed), a local `runtime tag src dst` (lines 385-390), and a
`runtime push ref` (lines 392-395). -/
inductive Cmd where
  | listImages (runtime : String)
  | build (tag_extension : Option String)
  | tag (runtime : String) (src : String) (dst : String)
  | push (runtime : String) (ref : String)
deriving DecidableEq

deriving instance DecidableEq for Except

/-- The error raised at line 367:
`RuntimeError("Unable to find the appropriate image to push.")`, reached
when no image was found and building is disallowed. -/
inductive PushError where
  | ImageNotFound
deriving DecidableEq

/-- The retagging step of `push` (lines 368-377): the new working tag.
The guard is Python `tag_extension and not built_tag.endswith("-" + ext)` —
note the truthiness test, under which both `None` and the empty string skip
the branch — and on entry `built_tag += "-" + ext`.

Caution (a bug in the source): the `shell(runtime + " tag " + ...)` call at
lines 373-376 builds a generator that is never iterated, so the `runtime
tag` subprocess of this step is never actually executed even though the
working tag is extended; the executed-subprocess trace of `push` therefore
contains no retag command. -/
def retag_step (tag_extension : Option String) (built_tag : String) : String :=
  match tag_extension with
  | some e =>
    if e != "" && !(ends_with built_tag ("-" ++ e)) then
      built_tag ++ "-" ++ e
    else
      built_tag
  | none => built_tag

/-- The fully qualified extra tags computed at lines 379-381 of `push`:
`"{index.img}:{tag}"` for each caller-supplied bare tag, in order. -/
def extra_tags_of (img : String) (extra_tag : List String) : List String :=
  extra_tag.map (fun t => img ++ ":" ++ t)

/-- The tail of the `push` command common to all successful paths
(lines 379-395): the local tag commands mapping the working tag to each
extra tag (executed: the loop at lines 388-390 iterates each generator),
then the push commands for every extra tag followed by the working tag
(`extra_tags + [built_tag]`, line 392). -/
def publish_tail (runtime img built_tag : String) (extra_tag : List String) :
    List Cmd :=
  (extra_tags_of img extra_tag).map (fun t => Cmd.tag runtime built_tag t)
    ++ ((extra_tags_of img extra_tag) ++ [built_tag]).map
        (fun t => Cmd.push runtime t)

/-- Mirrors the `push` command (lines 319-395) as a function from its
inputs to the list of subprocesses it executes, in order, and its outcome
(the final working tag, or the error raised).  Inputs: the loaded settings,
the detected runtime string, the `--tag-extension` option (`none` when
absent), the `--extra-tag` list, the build/no-build flag, and the
local image list returned by the `images --format ...` subprocess.

Control flow of the source: resolve the tag against the local images
(lines 334-354, here `resolve`); if not found and building is allowed,
invoke the `build` subcommand and extend the working tag when an extension
was supplied (`if tag_extension is not None`, lines 356-365); if not found
and building is disallowed, raise (line 367); if found, run the retag step
(lines 368-377, whose `runtime tag` subprocess is never executed — see
`retag_step`); finally apply the extra tags and push (lines 379-395). -/
def push (s : OperatorIndexSettings) (runtime : String)
    (tag_extension : Option String) (extra_tag : List String)
    (build : Bool) (images : List String) :
    List Cmd × Except PushError String :=
  let base := configured_tag s
  let res := resolve base tag_extension images
  if res.found then
    let bt := retag_step tag_extension res.resolvedTag
    (Cmd.listImages runtime :: publish_tail runtime s.index.img bt extra_tag,
     Except.ok bt)
  else if build then
    let bt := match tag_extension with
      | some e => base ++ "-" ++ e
      | none => base
    (Cmd.listImages runtime :: Cmd.build tag_extension ::
       publish_tail runtime s.index.img bt extra_tag,
     Except.ok bt)
  else
    ([Cmd.listImages runtime], Except.error PushError.ImageNotFound)

/-- The sequence of references pushed by a command trace, in order. -/
def pushRefs (cmds : List Cmd) : List String :=
  cmds.filterMap (fun c => match c with
    | Cmd.push _ ref => some ref
    | _ => none)

/-- The sequence of local `(src, dst)` tag operations in a command trace. -/
def tagOps (cmds : List Cmd) : List (String × String) :=
  cmds.filterMap (fun c => match c with
    | Cmd.tag _ src dst => some (src, dst)
    | _ => none)

/-- Whether a command trace invokes the `build` subcommand. -/
def hasBuild (cmds : List Cmd) : Bool :=
  cmds.any (fun c => match c with
    | Cmd.build _ => true
    | _ => false)

/-! ## Helper lemmas about command traces -/

/-- Bridge between the boolean `List.contains` used by the search loops and
list membership. -/
theorem contains_iff_mem (a : String) (l : List String) :
    l.contains a = true ↔ a ∈ l := by
  simp

/-- A leading image-listing command contributes no push. -/
theorem pushRefs_cons_listImages (r : String) (cs : List Cmd) :
    pushRefs (Cmd.listImages r :: cs) = pushRefs cs := rfl

/-- A leading build command contributes no push. -/
theorem pushRefs_cons_build (e : Option String) (cs : List Cmd) :
    pushRefs (Cmd.build e :: cs) = pushRefs cs := rfl

/-- Push commands of concatenated traces concatenate. -/
theorem pushRefs_append (a b : List Cmd) :
    pushRefs (a ++ b) = pushRefs a ++ pushRefs b :=
  List.filterMap_append a b _

/-- Local tag commands contribute no push. -/
theorem pushRefs_map_tag (r bt : String) (l : List String) :
    pushRefs (l.map (fun t => Cmd.tag r bt t)) = [] := by
  induction l with
  | nil => rfl
  | cons a l ih => simp [pushRefs, List.filterMap_cons, ih]

/-- A block of push commands pushes exactly its references, in order. -/
theorem pushRefs_map_push (r : String) (l : List String) :
    pushRefs (l.map (fun t => Cmd.push r t)) = l := by
  induction l with
  | nil => rfl
  | cons a l ih => simpa [pushRefs, List.filterMap_cons] using ih

/-- The pushes of the common tail are the extra tags followed by the
working tag. -/
theorem pushRefs_publish_tail (r img bt : String) (x : List String) :
    pushRefs (publish_tail r img bt x) = extra_tags_of img x ++ [bt] := by
  unfold publish_tail
  rw [pushRefs_append, pushRefs_map_tag, pushRefs_map_push]
  rfl

/-- Local tag operations of concatenated traces concatenate. -/
theorem tagOps_append (a b : List Cmd) :
    tagOps (a ++ b) = tagOps a ++ tagOps b :=
  List.filterMap_append a b _

/-- A block of tag commands records exactly its `(src, dst)` pairs. -/
theorem tagOps_map_tag (r bt : String) (l : List String) :
    tagOps (l.map (fun t => Cmd.tag r bt t)) = l.map (fun t => (bt, t)) := by
  induction l with
  | nil => rfl
  | cons a l ih => simpa [tagOps, List.filterMap_cons] using ih

/-- Push commands contribute no local tag operation. -/
theorem tagOps_map_push (r : String) (l : List String) :
    tagOps (l.map (fun t => Cmd.push r t)) = [] := by
  induction l with
  | nil => rfl
  | cons a l ih => simp [tagOps, List.filterMap_cons, ih]

/-- The tag operations of the common tail map the working tag to each extra
tag, in order. -/
theorem tagOps_publish_tail (r img bt : String) (x : List String) :
    tagOps (publish_tail r img bt x) =
      (extra_tags_of img x).map (fun t => (bt, t)) := by
  unfold publish_tail
  rw [tagOps_append, tagOps_map_tag, tagOps_map_push]
  simp

/-- A leading image-listing command is not a build invocation. -/
theorem hasBuild_cons_listImages (r : String) (cs : List Cmd) :
    hasBuild (Cmd.listImages r :: cs) = hasBuild cs := rfl

/-- A leading build command makes the trace contain a build invocation. -/
theorem hasBuild_cons_build (e : Option String) (cs : List Cmd) :
    hasBuild (Cmd.build e :: cs) = true := rfl

/-- The common tail never invokes the build subcommand. -/
theorem hasBuild_publish_tail (r img bt : String) (x : List String) :
    hasBuild (publish_tail r img bt x) = false := by
  unfold publish_tail hasBuild
  rw [List.any_append]
  simp [List.any_map, Function.comp]

/-! ## Claim theorems -/

/-- Claim C1: for every base tag `B`, extension `E`, and list of local
images `L`, if `B-E` is an element of `L` then `resolve` returns found=true
with resolvedTag `B-E` (regardless of whether `B` itself is also in `L`);
otherwise, if `B` is an element of `L`, it returns found=true with
resolvedTag `B`. -/
theorem resolve_extension_precedence (B E : String) (L : List String) :
    ((B ++ "-" ++ E) ∈ L →
      resolve B (some E) L = { found := true, resolvedTag := B ++ "-" ++ E }) ∧
    ((B ++ "-" ++ E) ∉ L → B ∈ L →
      resolve B (some E) L = { found := true, resolvedTag := B }) := by
  constructor
  · intro h
    simp [resolve, h]
  · intro h hB
    simp [resolve, h, hB]

/-- Witness for C1: both branches at concrete inputs. -/
theorem resolve_extension_precedence_witness :
    resolve "idx:v1" (some "ci") ["idx:v1-ci", "idx:v1"] =
      { found := true, resolvedTag := "idx:v1" ++ "-" ++ "ci" } ∧
    resolve "idx:v1" (some "ci") ["idx:v1"] =
      { found := true, resolvedTag := "idx:v1" } :=
  ⟨(resolve_extension_precedence "idx:v1" "ci" ["idx:v1-ci", "idx:v1"]).1
      (by decide),
   (resolve_extension_precedence "idx:v1" "ci" ["idx:v1"]).2
      (by decide) (by decide)⟩

/-- Claim C6: for every base tag `B` and list of local images `L`,
resolution with no extension returns found=true iff `B` is an element of
`L`, and in every case resolvedTag is `B`; matching is exact string
equality against the full `image:tag` identity (membership of the whole
string, never a prefix or fuzzy match). -/
theorem resolve_no_extension_spec (B : String) (L : List String) :
    ((resolve B none L).found = true ↔ B ∈ L) ∧
    (resolve B none L).resolvedTag = B := by
  by_cases h : B ∈ L <;> simp [resolve, h]

/-- Claim C7: for settings with bundle list `[{img:"a", tag:"1"}]` (any
bundle name) and index `{img:"idx", tag:"v1"}`, generating the build
arguments for runtime "docker" yields exactly
`" index add --build-tool docker --bundles a:1 --tag idx:v1"`. -/
theorem generate_command_line_scenario (nm : Option String) :
    generate_command_line
      { bundles := [{ name := nm, img := "a", tag := "1" }],
        index := { img := "idx", tag := "v1" } } "docker" =
    " index add --build-tool docker --bundles a:1 --tag idx:v1" := rfl

/-- Claim C8: runtime detection evaluates docker first and then podman; a
candidate is accepted exactly when some line of its `which` output passes
the acceptance test (ends with `/<candidate>` and is not a symbolic link);
the first accepted candidate is returned regardless of the other, and when
neither is accepted the result is the `NoRuntimeFound` error. -/
theorem determine_runtime_spec (islink : String → Bool)
    (d p : List String) :
    (determine_runtime islink d p = Except.ok "docker" ↔
      d.any (accepted_line islink "/docker") = true) ∧
    (determine_runtime islink d p = Except.ok "podman" ↔
      (d.any (accepted_line islink "/docker") = false ∧
       p.any (accepted_line islink "/podman") = true)) ∧
    (determine_runtime islink d p = Except.error RuntimeError.NoRuntimeFound ↔
      (d.any (accepted_line islink "/docker") = false ∧
       p.any (accepted_line islink "/podman") = false)) := by
  by_cases hd : d.any (accepted_line islink "/docker") = true <;>
    by_cases hp : p.any (accepted_line islink "/podman") = true <;>
      simp [determine_runtime, hd, hp]

/-- Claim C5: whenever the `push` command succeeds with working tag `W`,
the sequence of push operations it issues is exactly the caller-supplied
extra tags, each qualified as `{index.img}:{t}`, in caller order, followed
by `W` last. -/
theorem push_order (s : OperatorIndexSettings) (runtime : String)
    (tag_extension : Option String) (extra_tag : List String)
    (build : Bool) (images : List String) (W : String)
    (h : (push s runtime tag_extension extra_tag build images).2 =
      Except.ok W) :
    pushRefs (push s runtime tag_extension extra_tag build images).1 =
      extra_tag.map (fun t => s.index.img ++ ":" ++ t) ++ [W] := by
  by_cases hf : (resolve (configured_tag s) tag_extension images).found = true
  · simp only [push, hf, if_pos] at h ⊢
    rw [pushRefs_cons_listImages, pushRefs_publish_tail]
    simp only [Except.ok.injEq] at h
    rw [h]
    rfl
  · by_cases hb : build = true
    · simp only [push, hf, hb, Bool.not_eq_true, if_neg, if_pos,
        Bool.false_eq_true, if_false, if_true] at h ⊢
      rw [pushRefs_cons_listImages, pushRefs_cons_build,
        pushRefs_publish_tail]
      simp only [Except.ok.injEq] at h
      rw [h]
      rfl
    · simp only [push, hf, hb, Bool.not_eq_true, Bool.false_eq_true,
        if_false] at h
      simp at h

/-- Witness for C5: two extra tags and a found working tag at concrete
inputs. -/
theorem push_order_witness :
    pushRefs (push { bundles := [], index := { img := "idx", tag := "v1" } }
        "docker" none ["e1", "e2"] false ["idx:v1"]).1 =
      ["e1", "e2"].map
          (fun t =>
            ({ bundles := [],
               index := { img := "idx", tag := "v1" } } :
                 OperatorIndexSettings).index.img ++ ":" ++ t)
        ++ ["idx:v1"] :=
  push_order { bundles := [], index := { img := "idx", tag := "v1" } }
    "docker" none ["e1", "e2"] false ["idx:v1"] "idx:v1" (by decide)

/-- Counterexample to claim C2: with local images exactly `["idx:v1"]`,
configured index `idx:v1`, extension "ci" and building disabled, the `push`
command does not fail with `ImageNotFound` — the generic-tag search loop
runs even though an extension was requested, accepts `idx:v1`, and the
orchestration proceeds. -/
theorem push_generic_fallback_no_error_cex :
    (push { bundles := [], index := { img := "idx", tag := "v1" } }
        "docker" (some "ci") [] false ["idx:v1"]).2 ≠
      Except.error PushError.ImageNotFound := by decide

/-- Claim C2 (amended): with local images exactly `["idx:v1"]`, configured
index `idx:v1`, extension "ci" and building disabled, the orchestration
succeeds: the plain `idx:v1` match satisfies the request (generic
fallback), the working tag becomes `idx:v1-ci`, and exactly that tag is
pushed. -/
theorem push_generic_fallback_retag_success :
    push { bundles := [], index := { img := "idx", tag := "v1" } }
        "docker" (some "ci") [] false ["idx:v1"] =
      ([Cmd.listImages "docker", Cmd.push "docker" "idx:v1-ci"],
       Except.ok "idx:v1-ci") := by decide

/-- Counterexample to claim C3: with local images exactly `["idx:v1"]`,
configured index `idx:v1`, extension "ci" and building enabled, the build
subcommand is not invoked — the generic-tag match short-circuits the
build-needed branch. -/
theorem push_generic_fallback_no_build_cex :
    hasBuild (push { bundles := [], index := { img := "idx", tag := "v1" } }
        "docker" (some "ci") [] true ["idx:v1"]).1 = false := by decide

/-- Claim C3 (amended): with local images exactly `["idx:v1"]`, configured
index `idx:v1`, extension "ci" and building enabled, the Build Invoker is
not invoked: the generic `idx:v1` match is accepted and the working tag
becomes `idx:v1-ci`; in general the build subcommand runs during a `push`
with building enabled exactly when tag resolution finds neither the
extended nor the generic tag. -/
theorem push_build_characterization :
    (push { bundles := [], index := { img := "idx", tag := "v1" } }
        "docker" (some "ci") [] true ["idx:v1"] =
      ([Cmd.listImages "docker", Cmd.push "docker" "idx:v1-ci"],
       Except.ok "idx:v1-ci")) ∧
    ∀ (s : OperatorIndexSettings) (runtime : String)
      (tag_extension : Option String) (extra_tag : List String)
      (images : List String),
      hasBuild (push s runtime tag_extension extra_tag true images).1 =
        !(resolve (configured_tag s) tag_extension images).found := by
  refine ⟨by decide, ?_⟩
  intro s runtime tag_extension extra_tag images
  by_cases hf : (resolve (configured_tag s) tag_extension images).found = true
  · simp only [push, hf, if_pos]
    rw [hasBuild_cons_listImages, hasBuild_publish_tail]
    rfl
  · simp only [Bool.not_eq_true] at hf
    simp only [push, hf, Bool.false_eq_true, if_false, if_true]
    rw [hasBuild_cons_listImages, hasBuild_cons_build]
    rfl

/-- Claim C4 (exhibiting the bug in the code): with local images exactly
`["idx:v1"]`, configured index `idx:v1` and extension "ci", resolution
finds the generic tag and the retag branch is taken — the working tag is
extended to `idx:v1-ci` and pushed — yet no `runtime tag` subprocess is
executed at all, because the `shell(...)` call at lines 373-376 creates a
generator that is never iterated.  The claimed retag-before-push therefore
never happens. -/
theorem push_retag_subprocess_never_executed :
    (push { bundles := [], index := { img := "idx", tag := "v1" } }
        "docker" (some "ci") [] false ["idx:v1"]).2 =
      Except.ok "idx:v1-ci" ∧
    tagOps (push { bundles := [], index := { img := "idx", tag := "v1" } }
        "docker" (some "ci") [] false ["idx:v1"]).1 = [] ∧
    pushRefs (push { bundles := [], index := { img := "idx", tag := "v1" } }
        "docker" (some "ci") [] false ["idx:v1"]).1 = ["idx:v1-ci"] := by
  decide

/-- Counterexample to claim C9: the computed extra tags can contain the
working tag.  With configured index `idx:v1`, no extension, extra tag list
`["v1"]` and local images `["idx:v1"]`, the working tag is `idx:v1`, the
extra tags are `["idx:v1"]` — which contains the working tag — and
`idx:v1` is consequently pushed twice. -/
theorem extra_tags_contains_built_tag_cex :
    (push { bundles := [], index := { img := "idx", tag := "v1" } }
        "docker" none ["v1"] true ["idx:v1"]).2 = Except.ok "idx:v1" ∧
    "idx:v1" ∈ extra_tags_of "idx" ["v1"] ∧
    pushRefs (push { bundles := [], index := { img := "idx", tag := "v1" } }
        "docker" none ["v1"] true ["idx:v1"]).1 = ["idx:v1", "idx:v1"] := by
  decide

/-- Claim C9 (amended): every element of the computed extra tags is a
well-formed `image:tag` string built from the index image name and a
caller-supplied bare tag; the list may however contain the working tag
itself, since no deduplication is performed. -/
theorem extra_tags_wellformed (img : String) (extra_tag : List String)
    (x : String) (hx : x ∈ extra_tags_of img extra_tag) :
    ∃ t ∈ extra_tag, x = img ++ ":" ++ t := by
  simpa [extra_tags_of, eq_comm] using hx

/-- Witness for the amended C9 at a concrete element. -/
theorem extra_tags_wellformed_witness :
    ∃ t ∈ ["v1", "latest"], "idx:latest" = "idx" ++ ":" ++ t :=
  extra_tags_wellformed "idx" ["v1", "latest"] "idx:latest" (by decide)

/-- Claim C10: when the configured base tag itself already ends with
`-{extension}`, a generic-tag match skips the retag entirely and leaves the
working tag equal to the generic tag, because the retag condition tests
whether the resolved tag string ends with the extension rather than whether
the extension was actually applied. -/
theorem push_preextended_base_skips_retag (s : OperatorIndexSettings)
    (runtime : String) (e : String) (extra_tag : List String) (build : Bool)
    (images : List String)
    (hsuf : ends_with (configured_tag s) ("-" ++ e) = true)
    (hmem : configured_tag s ∈ images)
    (hnot : (configured_tag s ++ "-" ++ e) ∉ images) :
    retag_step (some e) (configured_tag s) = configured_tag s ∧
    (push s runtime (some e) extra_tag build images).2 =
      Except.ok (configured_tag s) := by
  have hres : resolve (configured_tag s) (some e) images =
      { found := true, resolvedTag := configured_tag s } := by
    simp [resolve, hmem, hnot]
  have hretag : retag_step (some e) (configured_tag s) = configured_tag s := by
    simp [retag_step, hsuf]
  refine ⟨hretag, ?_⟩
  simp [push, hres, hretag]

/-- Witness for C10: index tag `v1-ci` with requested extension `ci` and
the generic image present locally. -/
theorem push_preextended_base_skips_retag_witness :
    retag_step (some "ci")
        (configured_tag
          { bundles := [], index := { img := "idx", tag := "v1-ci" } }) =
      configured_tag
        { bundles := [], index := { img := "idx", tag := "v1-ci" } } ∧
    (push { bundles := [], index := { img := "idx", tag := "v1-ci" } }
        "docker" (some "ci") [] false ["idx:v1-ci"]).2 =
      Except.ok (configured_tag
        { bundles := [], index := { img := "idx", tag := "v1-ci" } }) :=
  push_preextended_base_skips_retag
    { bundles := [], index := { img := "idx", tag := "v1-ci" } }
    "docker" "ci" [] false ["idx:v1-ci"]
    (by decide) (by decide) (by decide)
